import Mathlib

/-!
Verification of the ImageCropTool core: affine geotransform conversions
(`coord_transform.py`), viewport zoom/fit, crop-rectangle editing and the
pixel-bounds validator (`gui.py`, `utils.py`), embedded over exact rational
arithmetic. Python `int()` truncation toward zero is modelled by `pytrunc`.
-/

/-- Python `int()` applied to a float/rational: truncation toward zero. -/
def pytrunc (q : ℚ) : ℤ := if 0 ≤ q then ⌊q⌋ else -⌊-q⌋

/-- The 6-parameter affine geotransform `(x_origin, pixel_width, x_rotation,
y_origin, y_rotation, pixel_height)` of `coord_transform.py`. -/
structure GeoTransform where
  x_origin : ℚ
  pixel_width : ℚ
  x_rotation : ℚ
  y_origin : ℚ
  y_rotation : ℚ
  pixel_height : ℚ
deriving DecidableEq

/-- Source `coord_transform.pixel_to_geo`: forward affine mapping. -/
def pixel_to_geo (gt : GeoTransform) (pixel_x pixel_y : ℚ) : ℚ × ℚ :=
  (gt.x_origin + pixel_x * gt.pixel_width + pixel_y * gt.x_rotation,
   gt.y_origin + pixel_x * gt.y_rotation + pixel_y * gt.pixel_height)

/-- Failure modes of `coord_transform.geo_to_pixel`: the explicit
singular-matrix raise, and the wrapped `ZeroDivisionError` of the
rotation-free branch. -/
inductive TransformErr where
  | singular
  | zeroDiv
deriving DecidableEq

/-- Source `coord_transform.geo_to_pixel`: inverse affine mapping, truncated to
integer pixel coordinates; rotation branch solves the 2x2 system via the
determinant and fails when `|det| < 1e-10`. -/
def geo_to_pixel (gt : GeoTransform) (geo_x geo_y : ℚ) :
    Except TransformErr (ℤ × ℤ) :=
  if gt.x_rotation ≠ 0 ∨ gt.y_rotation ≠ 0 then
    let det := gt.pixel_width * gt.pixel_height - gt.x_rotation * gt.y_rotation
    if |det| < 1 / 10 ^ 10 then Except.error TransformErr.singular
    else
      Except.ok
        (pytrunc ((gt.pixel_height * (geo_x - gt.x_origin) -
                   gt.x_rotation * (geo_y - gt.y_origin)) / det),
         pytrunc ((gt.pixel_width * (geo_y - gt.y_origin) -
                   gt.y_rotation * (geo_x - gt.x_origin)) / det))
  else if gt.pixel_width = 0 ∨ gt.pixel_height = 0 then
    Except.error TransformErr.zeroDiv
  else
    Except.ok
      (pytrunc ((geo_x - gt.x_origin) / gt.pixel_width),
       pytrunc ((geo_y - gt.y_origin) / gt.pixel_height))

/-- Source `coord_transform.calculate_crop_geotransform`: shift the origin to the
crop window's top-left pixel, keep the scale/rotation terms. -/
def calculate_crop_geotransform (original_gt : GeoTransform)
    (x_off y_off : ℤ) : GeoTransform :=
  { x_origin := original_gt.x_origin + x_off * original_gt.pixel_width +
      y_off * original_gt.x_rotation
    pixel_width := original_gt.pixel_width
    x_rotation := original_gt.x_rotation
    y_origin := original_gt.y_origin + x_off * original_gt.y_rotation +
      y_off * original_gt.pixel_height
    y_rotation := original_gt.y_rotation
    pixel_height := original_gt.pixel_height }

/-- Source `coord_transform.geo_bounds_to_pixel_bounds`: convert the two extreme
corners, normalise by min/max, clamp to the image, return offsets + sizes. -/
def geo_bounds_to_pixel_bounds (gt : GeoTransform)
    (min_x min_y max_x max_y : ℚ) (img_width img_height : ℤ) :
    Except TransformErr (ℤ × ℤ × ℤ × ℤ) :=
  match geo_to_pixel gt min_x max_y, geo_to_pixel gt max_x min_y with
  | Except.ok (ul_pixel_x, ul_pixel_y), Except.ok (lr_pixel_x, lr_pixel_y) =>
    let x_off := max 0 (min ul_pixel_x lr_pixel_x)
    let y_off := max 0 (min ul_pixel_y lr_pixel_y)
    let x_end := min img_width (max ul_pixel_x lr_pixel_x)
    let y_end := min img_height (max ul_pixel_y lr_pixel_y)
    Except.ok (x_off, y_off, x_end - x_off, y_end - y_off)
  | Except.error e, _ => Except.error e
  | _, Except.error e => Except.error e

/-! GUI-side viewport and crop-rectangle logic (`gui.py`). -/

def MIN_ZOOM : ℚ := 1 / 10

def MAX_ZOOM : ℚ := 50

def ZOOM_FACTOR : ℚ := 6 / 5

/-- Source `ImageCropApp.image_to_canvas`: image coords to canvas coords. -/
def image_to_canvas (scale offset_x offset_y ix iy : ℚ) : ℚ × ℚ :=
  (ix * scale + offset_x, iy * scale + offset_y)

/-- Source `ImageCropApp.canvas_to_image`: canvas coords to image coords. -/
def canvas_to_image (scale offset_x offset_y cx cy : ℚ) : ℚ × ℚ :=
  ((cx - offset_x) / scale, (cy - offset_y) / scale)

/-- Source `ImageCropApp.on_mouse_wheel` viewport update (also the body of
`_zoom_view`): clamp the new scale to `[MIN_ZOOM, MAX_ZOOM]` and shift the
offsets around the anchor `(mx, my)`; returns
`(scale, offset_x, offset_y)` after the event. -/
def on_mouse_wheel (scale offset_x offset_y mx my factor : ℚ) : ℚ × ℚ × ℚ :=
  let new_scale := scale * factor
  let new_scale := if new_scale < MIN_ZOOM then MIN_ZOOM else new_scale
  let new_scale := if new_scale > MAX_ZOOM then MAX_ZOOM else new_scale
  let real_factor := new_scale / scale
  (new_scale,
   mx - (mx - offset_x) * real_factor,
   my - (my - offset_y) * real_factor)

/-- Source `ImageCropApp.zoom_fit`: fit-to-canvas scale with a 0.95 margin and
centering offsets; substitutes an 800x600 canvas when the reported canvas
width is below 10. Returns `(scale, offset_x, offset_y)`. -/
def zoom_fit (img_width img_height : ℤ) (cw ch : ℚ) : ℚ × ℚ × ℚ :=
  let cw' := if cw < 10 then (800 : ℚ) else cw
  let ch' := if cw < 10 then (600 : ℚ) else ch
  let w_ratio := cw' / (img_width : ℚ)
  let h_ratio := ch' / (img_height : ℚ)
  let scale := min w_ratio h_ratio * (95 / 100)
  (scale,
   (cw' - (img_width : ℚ) * scale) / 2,
   (ch' - (img_height : ℚ) * scale) / 2)

/-- The four corner handles of the crop rectangle. -/
inductive Handle where
  | nw
  | ne
  | sw
  | se
deriving DecidableEq

/-- Test `'n' in h` for the handle name strings of `gui.py`. -/
def Handle.hasN : Handle → Bool
  | .nw => true
  | .ne => true
  | _ => false

/-- Test `'s' in h`. -/
def Handle.hasS : Handle → Bool
  | .sw => true
  | .se => true
  | _ => false

/-- Test `'e' in h`. -/
def Handle.hasE : Handle → Bool
  | .ne => true
  | .se => true
  | _ => false

/-- Test `'w' in h`. -/
def Handle.hasW : Handle → Bool
  | .nw => true
  | .sw => true
  | _ => false

/-- Source `ImageCropApp.on_crop_drag`, `'move'` branch: translate the drag-start
bounds by the display delta divided by the scale, truncate, then clamp the
origin into `[0, W-w] x [0, H-h]`; size unchanged. -/
def on_crop_drag_move (ox oy ow oh : ℤ) (dxc dyc scale : ℚ)
    (img_width img_height : ℤ) : ℤ × ℤ × ℤ × ℤ :=
  let dx_img := dxc / scale
  let dy_img := dyc / scale
  let new_x := pytrunc ((ox : ℚ) + dx_img)
  let new_y := pytrunc ((oy : ℚ) + dy_img)
  let new_x := max 0 (min new_x (img_width - ow))
  let new_y := max 0 (min new_y (img_height - oh))
  (new_x, new_y, ow, oh)

/-- Source `ImageCropApp.on_crop_drag`, `'resize'` branch: per-axis adjustment of
the drag-start bounds by the display delta divided by the scale, flooring
each dimension at 10 image pixels; no clamp against the image bounds. -/
def on_crop_drag_resize (ox oy ow oh : ℤ) (handle : Handle)
    (dxc dyc scale : ℚ) : ℤ × ℤ × ℤ × ℤ :=
  let dx := dxc / scale
  let dy := dyc / scale
  let nx := if handle.hasW then (ox : ℚ) + dx else (ox : ℚ)
  let nw :=
    if handle.hasE then max 10 ((ow : ℚ) + dx)
    else if handle.hasW then max 10 ((ow : ℚ) - dx)
    else (ow : ℚ)
  let ny := if handle.hasN then (oy : ℚ) + dy else (oy : ℚ)
  let nh :=
    if handle.hasS then max 10 ((oh : ℚ) + dy)
    else if handle.hasN then max 10 ((oh : ℚ) - dy)
    else (oh : ℚ)
  (pytrunc nx, pytrunc ny, pytrunc nw, pytrunc nh)

/-- Source `ImageCropApp.move_crop`: keyboard nudge by an integer step with the
same clamp rule as the move drag. -/
def move_crop (x y w h dx dy img_width img_height : ℤ) : ℤ × ℤ × ℤ × ℤ :=
  (max 0 (min (x + dx) (img_width - w)),
   max 0 (min (y + dy) (img_height - h)),
   w, h)

/-- Source `ImageCropApp.apply_input_bounds`, pixel mode: the typed values are
truncated to integers and stored directly, with no clamping. -/
def apply_input_bounds_pixel (vx vy vw vh : ℚ) : ℤ × ℤ × ℤ × ℤ :=
  (pytrunc vx, pytrunc vy, pytrunc vw, pytrunc vh)

/-- Source `ImageCropApp.on_crop_end`, drawing branch: normalise the down-point and
release-point into image space; a width or height below 1 image pixel
yields no crop rectangle. -/
def on_crop_end_draw (scale offset_x offset_y sx sy ex ey : ℚ) :
    Option (ℤ × ℤ × ℤ × ℤ) :=
  let p1 := canvas_to_image scale offset_x offset_y sx sy
  let p2 := canvas_to_image scale offset_x offset_y ex ey
  let x := min p1.1 p2.1
  let y := min p1.2 p2.2
  let w := |p2.1 - p1.1|
  let h := |p2.2 - p1.2|
  if w < 1 ∨ h < 1 then none
  else some (pytrunc x, pytrunc y, pytrunc w, pytrunc h)

/-- Source `ImageCropApp._geo_to_pixel`: uses the cached inverse geotransform when
available, otherwise falls back to the rotation-free formula; never
raises. -/
def gui_geo_to_pixel (has_geo : Bool) (inv_geo_transform : Option GeoTransform)
    (gt : GeoTransform) (gx gy : ℚ) : ℚ × ℚ :=
  if !has_geo then (gx, gy)
  else
    match inv_geo_transform with
    | some igt =>
      (igt.x_origin + gx * igt.pixel_width + gy * igt.x_rotation,
       igt.y_origin + gx * igt.y_rotation + gy * igt.pixel_height)
    | none =>
      ((gx - gt.x_origin) / gt.pixel_width,
       (gy - gt.y_origin) / gt.pixel_height)

/-- Source `ImageCropApp.update_crop_inputs`, geo mode with a crop rectangle: the
two opposite corners through `pixel_to_geo`, reported as
`(min-x, min-y, width, height)` in geo units. -/
def update_crop_inputs_geo (gt : GeoTransform) (x y w h : ℤ) :
    ℚ × ℚ × ℚ × ℚ :=
  let g1 := pixel_to_geo gt (x : ℚ) (y : ℚ)
  let g2 := pixel_to_geo gt ((x + w : ℤ) : ℚ) ((y + h : ℤ) : ℚ)
  (min g1.1 g2.1, min g1.2 g2.2, |g2.1 - g1.1|, |g2.2 - g1.2|)

/-- Source `utils.validate_pixel_bounds`: reject a bad origin or nonpositive size
(`none` models the `InvalidBoundsError` raise), silently shrink a size
running past the right/bottom edge. -/
def validate_pixel_bounds (x_off y_off x_size y_size img_width img_height : ℤ) :
    Option (ℤ × ℤ × ℤ × ℤ) :=
  if x_off < 0 ∨ y_off < 0 then none
  else if x_off ≥ img_width ∨ y_off ≥ img_height then none
  else if x_size ≤ 0 ∨ y_size ≤ 0 then none
  else
    let xs := if x_off + x_size > img_width then img_width - x_off else x_size
    let ys := if y_off + y_size > img_height then img_height - y_off else y_size
    some (x_off, y_off, xs, ys)

/-- The crop-rectangle invariant of the spec: inside `[0,W] x [0,H]` with
both dimensions at least 10 image pixels. -/
def cropInv (img_width img_height x y w h : ℤ) : Prop :=
  0 ≤ x ∧ 0 ≤ y ∧ x + w ≤ img_width ∧ y + h ≤ img_height ∧ 10 ≤ w ∧ 10 ≤ h

instance (img_width img_height x y w h : ℤ) :
    Decidable (cropInv img_width img_height x y w h) := by
  unfold cropInv
  infer_instance

/-- The geotransform of the spec's worked scenario:
`(116.0, 0.001, 0, 40.0, 0, -0.001)`. -/
def gtc : GeoTransform :=
  { x_origin := 116, pixel_width := 1 / 1000, x_rotation := 0,
    y_origin := 40, y_rotation := 0, pixel_height := -1 / 1000 }

/-- A unit rotation-free geotransform, for concrete evaluations. -/
def gt0 : GeoTransform :=
  { x_origin := 0, pixel_width := 1, x_rotation := 0,
    y_origin := 0, y_rotation := 0, pixel_height := 1 }

/-- A geotransform with nonzero rotation terms and zero determinant
(`1*1 - 1*1 = 0`): its inverse does not exist. -/
def gtS : GeoTransform :=
  { x_origin := 116, pixel_width := 1, x_rotation := 1,
    y_origin := 40, y_rotation := 1, pixel_height := 1 }

/-! Theorems. -/

theorem pytrunc_intCast (n : ℤ) : pytrunc (n : ℚ) = n := by
  unfold pytrunc
  split
  · simp
  · rw [← Int.cast_neg, Int.floor_intCast]
    omega

example : pytrunc (-10 : ℚ) = -10 := by norm_num [pytrunc]
example : pytrunc (7/2 : ℚ) = 3 := by norm_num [pytrunc]
example : pytrunc (-7/2 : ℚ) = -3 := by norm_num [pytrunc]

/-- C4: `calculate_crop_geotransform` keeps the four scale/rotation terms,
moves the origin to `pixel_to_geo` of the crop offset, and consequently
`pixel_to_geo` of the new transform at `(p, q)` equals `pixel_to_geo` of
the original at `(p + x_off, q + y_off)`: the cropped image's geospatial
footprint matches the pixel window of the original. -/
theorem c4_crop_geotransform_footprint (gt : GeoTransform) (x_off y_off : ℤ)
    (p q : ℚ) :
    (calculate_crop_geotransform gt x_off y_off).x_origin
        = (pixel_to_geo gt (x_off : ℚ) (y_off : ℚ)).1 ∧
    (calculate_crop_geotransform gt x_off y_off).y_origin
        = (pixel_to_geo gt (x_off : ℚ) (y_off : ℚ)).2 ∧
    (calculate_crop_geotransform gt x_off y_off).pixel_width = gt.pixel_width ∧
    (calculate_crop_geotransform gt x_off y_off).x_rotation = gt.x_rotation ∧
    (calculate_crop_geotransform gt x_off y_off).y_rotation = gt.y_rotation ∧
    (calculate_crop_geotransform gt x_off y_off).pixel_height = gt.pixel_height ∧
    pixel_to_geo (calculate_crop_geotransform gt x_off y_off) p q
        = pixel_to_geo gt (p + (x_off : ℚ)) (q + (y_off : ℚ)) := by
  simp only [calculate_crop_geotransform, pixel_to_geo, Prod.mk.injEq]
  refine ⟨by ring, by ring, by trivial, by trivial, by trivial, by trivial,
    by ring, by ring⟩

theorem on_mouse_wheel_scale_pos (scale offset_x offset_y mx my factor : ℚ) :
    0 < (on_mouse_wheel scale offset_x offset_y mx my factor).1 := by
  simp only [on_mouse_wheel, MIN_ZOOM, MAX_ZOOM]
  split_ifs <;> norm_num <;> linarith

theorem anchor_quotient (ns scale a off : ℚ) (hns : ns ≠ 0) (hs : scale ≠ 0) :
    (a - (a - (a - off) * (ns / scale))) / ns = (a - off) / scale := by
  field_simp
  ring

/-- C2: wheel zoom is anchor-invariant — after the clamped rescale and
offset update of `on_mouse_wheel`, the image coordinate of the anchor
point is unchanged; and the spec's scenario: zooming at `(400, 300)` by
`1.2` from scale `1` and offsets `(0, 0)` yields scale `1.2` and offsets
`(-80, -60)`. -/
theorem c2_wheel_zoom_anchor_invariant :
    (∀ scale offset_x offset_y mx my factor : ℚ, 0 < scale →
      (mx - (on_mouse_wheel scale offset_x offset_y mx my factor).2.1) /
          (on_mouse_wheel scale offset_x offset_y mx my factor).1
        = (mx - offset_x) / scale ∧
      (my - (on_mouse_wheel scale offset_x offset_y mx my factor).2.2) /
          (on_mouse_wheel scale offset_x offset_y mx my factor).1
        = (my - offset_y) / scale) ∧
    on_mouse_wheel 1 0 0 400 300 (6 / 5) = (6 / 5, -80, -60) := by
  constructor
  · intro scale offset_x offset_y mx my factor hs
    have hpos := on_mouse_wheel_scale_pos scale offset_x offset_y mx my factor
    simp only [on_mouse_wheel] at hpos ⊢
    exact ⟨anchor_quotient _ _ _ _ (ne_of_gt hpos) (ne_of_gt hs),
           anchor_quotient _ _ _ _ (ne_of_gt hpos) (ne_of_gt hs)⟩
  · norm_num [on_mouse_wheel, MIN_ZOOM, MAX_ZOOM, Prod.ext_iff]

/-- C2 witness: the anchor-invariance part applied at the scenario's
concrete viewport. -/
theorem c2_witness :
    (0 : ℚ) < 1 ∧
    ((400 : ℚ) - (on_mouse_wheel 1 0 0 400 300 (6 / 5)).2.1) /
        (on_mouse_wheel 1 0 0 400 300 (6 / 5)).1 = ((400 : ℚ) - 0) / 1 ∧
    ((300 : ℚ) - (on_mouse_wheel 1 0 0 400 300 (6 / 5)).2.2) /
        (on_mouse_wheel 1 0 0 400 300 (6 / 5)).1 = ((300 : ℚ) - 0) / 1 :=
  ⟨by norm_num,
   c2_wheel_zoom_anchor_invariant.1 1 0 0 400 300 (6 / 5) (by norm_num)⟩

/-- C3: `geo_to_pixel` inverts `pixel_to_geo` exactly, both in the
rotation-free branch (when both pixel scales are nonzero) and in the
2x2-solve branch (when the determinant is at least `1e-10` in absolute
value). -/
theorem c3_round_trip (gt : GeoTransform) (px py : ℤ)
    (h : (gt.x_rotation = 0 ∧ gt.y_rotation = 0 ∧
          gt.pixel_width ≠ 0 ∧ gt.pixel_height ≠ 0) ∨
         (¬(gt.x_rotation = 0 ∧ gt.y_rotation = 0) ∧
          1 / 10 ^ 10 ≤
            |gt.pixel_width * gt.pixel_height -
             gt.x_rotation * gt.y_rotation|)) :
    geo_to_pixel gt (pixel_to_geo gt (px : ℚ) (py : ℚ)).1
        (pixel_to_geo gt (px : ℚ) (py : ℚ)).2 = Except.ok (px, py) := by
  rcases h with ⟨hxr, hyr, hpw, hph⟩ | ⟨hrot, hdet⟩
  · have hx : (pixel_to_geo gt (px : ℚ) (py : ℚ)).1 - gt.x_origin
        = (px : ℚ) * gt.pixel_width := by
      simp [pixel_to_geo, hxr]
    have hy : (pixel_to_geo gt (px : ℚ) (py : ℚ)).2 - gt.y_origin
        = (py : ℚ) * gt.pixel_height := by
      simp [pixel_to_geo, hyr]
    rw [geo_to_pixel, if_neg (by simp [hxr, hyr]),
      if_neg (by simp [hpw, hph]), hx, hy,
      mul_div_cancel_right₀ _ hpw, mul_div_cancel_right₀ _ hph,
      pytrunc_intCast, pytrunc_intCast]
  · have hd : gt.pixel_width * gt.pixel_height -
        gt.x_rotation * gt.y_rotation ≠ 0 := by
      intro h0
      rw [h0] at hdet
      norm_num at hdet
    have hcond : gt.x_rotation ≠ 0 ∨ gt.y_rotation ≠ 0 := by tauto
    rw [geo_to_pixel, if_pos hcond]
    simp only [not_lt.mpr hdet, if_false]
    have hx : (gt.pixel_height * ((pixel_to_geo gt (px : ℚ) (py : ℚ)).1 -
        gt.x_origin) - gt.x_rotation * ((pixel_to_geo gt (px : ℚ) (py : ℚ)).2 -
        gt.y_origin)) / (gt.pixel_width * gt.pixel_height -
        gt.x_rotation * gt.y_rotation) = (px : ℚ) := by
      rw [div_eq_iff hd]
      simp only [pixel_to_geo]
      ring
    have hy : (gt.pixel_width * ((pixel_to_geo gt (px : ℚ) (py : ℚ)).2 -
        gt.y_origin) - gt.y_rotation * ((pixel_to_geo gt (px : ℚ) (py : ℚ)).1 -
        gt.x_origin)) / (gt.pixel_width * gt.pixel_height -
        gt.x_rotation * gt.y_rotation) = (py : ℚ) := by
      rw [div_eq_iff hd]
      simp only [pixel_to_geo]
      ring
    rw [hx, hy, pytrunc_intCast, pytrunc_intCast]

/-- C3 witness: the round trip at the spec scenario's geotransform and the
pixel `(3, 4)`. -/
theorem c3_witness :
    geo_to_pixel gtc (pixel_to_geo gtc ((3 : ℤ) : ℚ) ((4 : ℤ) : ℚ)).1
        (pixel_to_geo gtc ((3 : ℤ) : ℚ) ((4 : ℤ) : ℚ)).2
      = Except.ok ((3 : ℤ), (4 : ℤ)) :=
  c3_round_trip gtc 3 4
    (Or.inl ⟨rfl, rfl, by norm_num [gtc], by norm_num [gtc]⟩)

/-- C6: whenever `geo_bounds_to_pixel_bounds` returns a window, it is
clamped: nonnegative offsets and `off + size` within the image; and a
window collapsed past the image edge is still returned normally (here with
nonpositive size, an empty selection) rather than failing. -/
theorem c6_geo_bounds_window_clamped :
    (∀ (gt : GeoTransform) (min_x min_y max_x max_y : ℚ)
        (img_width img_height xo yo xs ys : ℤ),
      geo_bounds_to_pixel_bounds gt min_x min_y max_x max_y
          img_width img_height = Except.ok (xo, yo, xs, ys) →
      0 ≤ xo ∧ 0 ≤ yo ∧ xo + xs ≤ img_width ∧ yo + ys ≤ img_height) ∧
    geo_bounds_to_pixel_bounds gt0 (-10) (-10) (-5) (-5) 100 100
      = Except.ok (0, 0, -5, -5) := by
  constructor
  · intro gt min_x min_y max_x max_y img_width img_height xo yo xs ys hok
    unfold geo_bounds_to_pixel_bounds at hok
    cases h1 : geo_to_pixel gt min_x max_y with
    | error e =>
      cases h2 : geo_to_pixel gt max_x min_y <;> simp [h1, h2] at hok
    | ok ul =>
      cases h2 : geo_to_pixel gt max_x min_y with
      | error e =>
        obtain ⟨ulx, uly⟩ := ul
        simp [h1, h2] at hok
      | ok lr =>
        obtain ⟨ulx, uly⟩ := ul
        obtain ⟨lrx, lry⟩ := lr
        simp only [h1, h2, Except.ok.injEq, Prod.mk.injEq] at hok
        obtain ⟨e1, e2, e3, e4⟩ := hok
        subst e1
        subst e2
        subst e3
        subst e4
        omega
  · have h1 : geo_to_pixel gt0 (-10) (-5) = Except.ok (-10, -5) := by
      rw [geo_to_pixel, if_neg (by norm_num [gt0])]
      norm_num [gt0, pytrunc]
    have h2 : geo_to_pixel gt0 (-5) (-10) = Except.ok (-5, -10) := by
      rw [geo_to_pixel, if_neg (by norm_num [gt0])]
      norm_num [gt0, pytrunc]
    unfold geo_bounds_to_pixel_bounds
    rw [h1, h2]
    norm_num

/-- C6 witness: the clamped-window part applied to the spec scenario's
geotransform and a geo box reaching past the image edges. -/
theorem c6_witness :
    (0 : ℤ) ≤ 0 ∧ (0 : ℤ) ≤ 0 ∧ (0 : ℤ) + (-5) ≤ 100 ∧
    (0 : ℤ) + (-5) ≤ 100 :=
  c6_geo_bounds_window_clamped.1 gt0 (-10) (-10) (-5) (-5) 100 100 0 0
    (-5) (-5) c6_geo_bounds_window_clamped.2

/-- C9: releasing a drawing drag at its starting display point — and, in
general, any drawing drag whose normalised image-space width or height is
below 1 pixel at release — leaves no crop rectangle (`none`), not a
degenerate one. -/
theorem c9_degenerate_draw_discarded :
    (∀ scale offset_x offset_y p q : ℚ, 0 < scale →
      on_crop_end_draw scale offset_x offset_y p q p q = none) ∧
    (∀ scale offset_x offset_y sx sy ex ey : ℚ, 0 < scale →
      (|(canvas_to_image scale offset_x offset_y ex ey).1 -
        (canvas_to_image scale offset_x offset_y sx sy).1| < 1 ∨
       |(canvas_to_image scale offset_x offset_y ex ey).2 -
        (canvas_to_image scale offset_x offset_y sx sy).2| < 1) →
      on_crop_end_draw scale offset_x offset_y sx sy ex ey = none) := by
  constructor
  · intro scale offset_x offset_y p q _
    simp [on_crop_end_draw]
  · intro scale offset_x offset_y sx sy ex ey _ hsmall
    unfold on_crop_end_draw
    rw [if_pos hsmall]

/-- C9 witness: the zero-drag release at display point `(50, 50)` with
scale 1. -/
theorem c9_witness : on_crop_end_draw 1 0 0 50 50 50 50 = none :=
  c9_degenerate_draw_discarded.1 1 0 0 50 50 (by norm_num)

/-- C10: `validate_pixel_bounds` rejects (models `InvalidBoundsError`)
exactly when the origin is negative, the origin lies at or past the image
extent, or a size is nonpositive; otherwise it keeps the offsets unchanged
and silently shrinks any size running past the right/bottom edge so that
`off + size` fits the image. -/
theorem c10_validate_pixel_bounds (x_off y_off x_size y_size
    img_width img_height : ℤ) :
    (validate_pixel_bounds x_off y_off x_size y_size img_width img_height
        = none ↔
      (x_off < 0 ∨ y_off < 0 ∨ x_off ≥ img_width ∨ y_off ≥ img_height ∨
       x_size ≤ 0 ∨ y_size ≤ 0)) ∧
    (∀ xo yo xs ys : ℤ,
      validate_pixel_bounds x_off y_off x_size y_size img_width img_height
          = some (xo, yo, xs, ys) →
      xo = x_off ∧ yo = y_off ∧ xo + xs ≤ img_width ∧
      yo + ys ≤ img_height ∧
      (x_off + x_size ≤ img_width → xs = x_size) ∧
      (y_off + y_size ≤ img_height → ys = y_size)) := by
  unfold validate_pixel_bounds
  constructor
  · split_ifs with h1 h2 h3 <;> simp <;> omega
  · intro xo yo xs ys hok
    split_ifs at hok <;>
    first
      | exact Option.noConfusion hok
      | (simp only [Option.some.injEq, Prod.mk.injEq] at hok
         obtain ⟨e1, e2, e3, e4⟩ := hok
         subst e1
         subst e2
         exact ⟨rfl, rfl, by omega, by omega, by omega, by omega⟩)

/-- C10 witness: a window whose width runs past the right edge is shrunk
to fit while the offsets stay put. -/
theorem c10_witness :
    (10 : ℤ) = 10 ∧ (20 : ℤ) = 20 ∧ (10 : ℤ) + 90 ≤ 100 ∧
    (20 : ℤ) + 50 ≤ 100 ∧ ((10 : ℤ) + 1000 ≤ 100 → (90 : ℤ) = 1000) ∧
    ((20 : ℤ) + 50 ≤ 100 → (50 : ℤ) = 50) :=
  (c10_validate_pixel_bounds 10 20 1000 50 100 100).2 10 20 90 50 (by decide)

/-- C1 counterexample: from valid bounds `(0, 0, 20, 20)` in a 100x100
image, dragging the NW handle left by 5 display pixels at scale 1 moves
the rectangle's origin to `x = -5`, outside the image, so resize does not
re-establish the claimed invariant; a numeric-entry commit of
`(0, 0, 1000, 1000)` likewise stores a rectangle running far past the
image edge. -/
theorem c1_counterexample :
    cropInv 100 100 0 0 20 20 ∧
    on_crop_drag_resize 0 0 20 20 Handle.nw (-5) 0 1 = (-5, 0, 25, 20) ∧
    ¬ cropInv 100 100 (-5) 0 25 20 ∧
    apply_input_bounds_pixel 0 0 1000 1000 = (0, 0, 1000, 1000) ∧
    ¬ cropInv 100 100 0 0 1000 1000 := by
  refine ⟨by decide, ?_, by decide, ?_, by decide⟩
  · norm_num [on_crop_drag_resize, Handle.hasN, Handle.hasS, Handle.hasE,
      Handle.hasW, pytrunc, Prod.ext_iff]
  · norm_num [apply_input_bounds_pixel, pytrunc, Prod.ext_iff]

/-- C1 amended: the drag-move and keyboard-nudge mutations do preserve the
invariant `0 ≤ x`, `0 ≤ y`, `x + w ≤ W`, `y + h ≤ H`, `w ≥ 10`, `h ≥ 10`
for every display-space delta (resize clamps only the minimum size and
numeric entry clamps nothing, so they are excluded). -/
theorem c1_move_nudge_preserve_invariant :
    (∀ (ox oy ow oh : ℤ) (dxc dyc scale : ℚ) (img_width img_height : ℤ),
      cropInv img_width img_height ox oy ow oh →
      cropInv img_width img_height
        (on_crop_drag_move ox oy ow oh dxc dyc scale img_width img_height).1
        (on_crop_drag_move ox oy ow oh dxc dyc scale img_width img_height).2.1
        (on_crop_drag_move ox oy ow oh dxc dyc scale img_width img_height).2.2.1
        (on_crop_drag_move ox oy ow oh dxc dyc scale img_width img_height).2.2.2) ∧
    (∀ x y w h dx dy img_width img_height : ℤ,
      cropInv img_width img_height x y w h →
      cropInv img_width img_height
        (move_crop x y w h dx dy img_width img_height).1
        (move_crop x y w h dx dy img_width img_height).2.1
        (move_crop x y w h dx dy img_width img_height).2.2.1
        (move_crop x y w h dx dy img_width img_height).2.2.2) := by
  constructor
  · intro ox oy ow oh dxc dyc scale img_width img_height hinv
    unfold cropInv at hinv ⊢
    unfold on_crop_drag_move
    dsimp only
    generalize pytrunc ((ox : ℚ) + dxc / scale) = t1
    generalize pytrunc ((oy : ℚ) + dyc / scale) = t2
    omega
  · intro x y w h dx dy img_width img_height hinv
    unfold cropInv at hinv ⊢
    unfold move_crop
    dsimp only
    omega

/-- C1 witness: a concrete move drag and keyboard nudge from valid bounds
keep the invariant. -/
theorem c1_witness :
    cropInv 100 100
      (on_crop_drag_move 5 5 20 20 3 4 1 100 100).1
      (on_crop_drag_move 5 5 20 20 3 4 1 100 100).2.1
      (on_crop_drag_move 5 5 20 20 3 4 1 100 100).2.2.1
      (on_crop_drag_move 5 5 20 20 3 4 1 100 100).2.2.2 ∧
    cropInv 100 100
      (move_crop 5 5 20 20 (-10) 0 100 100).1
      (move_crop 5 5 20 20 (-10) 0 100 100).2.1
      (move_crop 5 5 20 20 (-10) 0 100 100).2.2.1
      (move_crop 5 5 20 20 (-10) 0 100 100).2.2.2 :=
  ⟨c1_move_nudge_preserve_invariant.1 5 5 20 20 3 4 1 100 100 (by decide),
   c1_move_nudge_preserve_invariant.2 5 5 20 20 (-10) 0 100 100 (by decide)⟩

/-- C5 counterexample: for the rotated singular geotransform `gtS`
(`det = 0`), `geo_to_pixel` does raise the singular error, but the GUI's
`_geo_to_pixel` with no cached inverse transform silently returns a
fallback result computed by the rotation-free formula instead of failing. -/
theorem c5_counterexample :
    geo_to_pixel gtS 117 39 = Except.error TransformErr.singular ∧
    gui_geo_to_pixel true none gtS 117 39 = (1, -1) := by
  constructor
  · rw [geo_to_pixel, if_pos (by norm_num [gtS])]
    norm_num [gtS]
  · norm_num [gui_geo_to_pixel, gtS, Prod.ext_iff]

/-- C5 amended: `coord_transform.geo_to_pixel` fails with the
singular-transform error exactly when the rotation terms are not both zero
and `|det| < 1e-10`; the GUI-side `_geo_to_pixel`, however, never raises:
with geo metadata but no cached inverse transform it falls back to the
rotation-free inverse formula. -/
theorem c5_singular_exactly (gt : GeoTransform) (gx gy : ℚ) :
    (geo_to_pixel gt gx gy = Except.error TransformErr.singular ↔
      ((gt.x_rotation ≠ 0 ∨ gt.y_rotation ≠ 0) ∧
       |gt.pixel_width * gt.pixel_height -
        gt.x_rotation * gt.y_rotation| < 1 / 10 ^ 10)) ∧
    gui_geo_to_pixel true none gt gx gy
      = ((gx - gt.x_origin) / gt.pixel_width,
         (gy - gt.y_origin) / gt.pixel_height) := by
  constructor
  · unfold geo_to_pixel
    split_ifs with h1 h2 <;> simp_all
  · rfl

/-- C7 counterexample: for the worked scenario (geotransform
`(116.0, 0.001, 0, 40.0, 0, -0.001)`, pixel window `(100, 50, 200, 150)`),
the reported minimum Y is `39.8`, not `39.85`: the claimed value is off by
`0.05`, far beyond the `1e-9` tolerance. -/
theorem c7_counterexample :
    (update_crop_inputs_geo gtc 100 50 200 150).2.1 = 199 / 5 ∧
    ¬ |(update_crop_inputs_geo gtc 100 50 200 150).2.1 - 797 / 20|
        ≤ 1 / 10 ^ 9 := by
  have h : (update_crop_inputs_geo gtc 100 50 200 150).2.1 = 199 / 5 := by
    norm_num [update_crop_inputs_geo, pixel_to_geo, gtc]
  refine ⟨h, ?_⟩
  rw [h]
  rw [abs_le]
  norm_num

/-- C7 amended: the scenario's reported geospatial bounds are exactly
`minX = 116.1`, `maxX = 116.3`, `minY = 39.80`, `maxY = 39.95`. -/
theorem c7_scenario_bounds :
    (update_crop_inputs_geo gtc 100 50 200 150).1 = 1161 / 10 ∧
    (update_crop_inputs_geo gtc 100 50 200 150).1 +
      (update_crop_inputs_geo gtc 100 50 200 150).2.2.1 = 1163 / 10 ∧
    (update_crop_inputs_geo gtc 100 50 200 150).2.1 = 199 / 5 ∧
    (update_crop_inputs_geo gtc 100 50 200 150).2.1 +
      (update_crop_inputs_geo gtc 100 50 200 150).2.2.2 = 799 / 20 := by
  norm_num [update_crop_inputs_geo, pixel_to_geo, gtc]
  constructor <;> rw [abs_of_nonneg (by norm_num)] <;> norm_num

/-- C8 counterexample: `zoom_fit` on a 1000x800 image with an 800x600
canvas yields scale `0.7125` and offsets `(43.75, 15)` — not the claimed
scale `≈ 0.57` with offsets `≈ (172, 0)`; and the 800x600 substitution is
keyed on the canvas width alone, so a canvas of `20 x 5` (height below 10)
is not substituted. -/
theorem c8_counterexample :
    zoom_fit 1000 800 800 600 = (57 / 80, 175 / 4, 15) ∧
    ¬ |(zoom_fit 1000 800 800 600).1 - 57 / 100| ≤ 1 / 10 ∧
    ¬ |(zoom_fit 1000 800 800 600).2.1 - 172| ≤ 100 ∧
    ¬ |(zoom_fit 1000 800 800 600).2.2 - 0| ≤ 10 ∧
    (zoom_fit 1000 800 20 5).1 = 19 / 3200 := by
  have h : zoom_fit 1000 800 800 600 = (57 / 80, 175 / 4, 15) := by
    norm_num [zoom_fit, Prod.ext_iff]
  refine ⟨h, ?_, ?_, ?_, ?_⟩
  · rw [h, abs_le]
    norm_num
  · rw [h, abs_le]
    norm_num
  · rw [h, abs_le]
    norm_num
  · norm_num [zoom_fit]

/-- C8 amended: `zoom_fit` sets `scale = min(cw/W, ch/H) * 0.95` and
centering offsets — the image's centre maps to the canvas centre —
substituting an 800x600 canvas exactly when the canvas width is below 10;
the 1000x800 / 800x600 scenario yields scale `0.7125`, offsetX `43.75`,
offsetY `15`. -/
theorem c8_fit_scale_and_centering :
    (∀ (img_width img_height : ℤ) (cw ch : ℚ), 10 ≤ cw →
      (zoom_fit img_width img_height cw ch).1
          = min (cw / (img_width : ℚ)) (ch / (img_height : ℚ)) * (95 / 100) ∧
      image_to_canvas (zoom_fit img_width img_height cw ch).1
          (zoom_fit img_width img_height cw ch).2.1
          (zoom_fit img_width img_height cw ch).2.2
          ((img_width : ℚ) / 2) ((img_height : ℚ) / 2)
        = (cw / 2, ch / 2)) ∧
    zoom_fit 1000 800 800 600 = (57 / 80, 175 / 4, 15) ∧
    (∀ (img_width img_height : ℤ) (cw ch : ℚ), cw < 10 →
      zoom_fit img_width img_height cw ch
        = zoom_fit img_width img_height 800 600) := by
  refine ⟨?_, by norm_num [zoom_fit, Prod.ext_iff], ?_⟩
  · intro img_width img_height cw ch hcw
    have hne : ¬ cw < 10 := not_lt.mpr hcw
    unfold zoom_fit image_to_canvas
    simp only [hne, if_false]
    refine ⟨by trivial, ?_⟩
    simp only [Prod.mk.injEq]
    constructor <;> ring
  · intro img_width img_height cw ch hcw
    unfold zoom_fit
    simp [hcw]

/-- C8 witness: the scale/centering part applied to the 1000x800 image and
the 800x600 canvas. -/
theorem c8_witness :
    (zoom_fit 1000 800 800 600).1
        = min ((800 : ℚ) / ((1000 : ℤ) : ℚ)) ((600 : ℚ) / ((800 : ℤ) : ℚ))
            * (95 / 100) ∧
    image_to_canvas (zoom_fit 1000 800 800 600).1
        (zoom_fit 1000 800 800 600).2.1 (zoom_fit 1000 800 800 600).2.2
        (((1000 : ℤ) : ℚ) / 2) (((800 : ℤ) : ℚ) / 2)
      = ((800 : ℚ) / 2, (600 : ℚ) / 2) :=
  c8_fit_scale_and_centering.1 1000 800 800 600 (by norm_num)
